import Mathlib

/-!
Shallow embedding of the process orchestration engine of the openrunner
repository (src-tauri/src): the process registry, spawner, exit watcher,
stop/shutdown paths, orphan reaper, PTY I/O operations and the stats
sampler, together with theorems settling the frozen claims about them.

Conventions of the embedding:
* Rust `HashMap<String, V>` state maps become association lists
  `List (String × V)` with lookup/insert/erase/modify helpers whose
  observable behaviour (lookup) matches the Rust map operations.
* The durable PID ledger file (one decimal pid per line) is a `List Nat`.
* Fallible external effects (child spawn, PTY allocation, PTY writes,
  database availability) are supplied as explicit environment values.
* Signals actually delivered to the OS are recorded in an event list so
  that theorems can talk about which pids were signalled.
* Rust `f32` CPU percentages are modelled as `Rat`; the claims under
  study are about which terms enter the sums and the normalisation
  structure, not about floating-point rounding.
-/

namespace OpenRunner

/-- Process status enum from models.rs (`Running | Stopping | Stopped | Errored`). -/
inductive ProcessStatus where
  | running
  | stopping
  | stopped
  | errored
deriving DecidableEq, Repr

/-- Modelled from the spec: the project type enum `Service | Task`.  The enum
declaration itself is absent from the captured models module, but every usage
site in the captured sources (watcher.rs, db.rs, yaml_config.rs) matches
exactly the two variants `ProjectType::Service` and `ProjectType::Task`. -/
inductive ProjectType where
  | service
  | task
deriving DecidableEq, Repr

/-- Error taxonomy from error.rs (only the variants the embedded
operations can produce). -/
inductive Error where
  | processAlreadyRunning (id : String)
  | processNotRunning (id : String)
  | spawnError (msg : String)
  | ioError
  | ptyError (msg : String)
  | databaseError (msg : String)
deriving DecidableEq, Repr

/-- Terminal size of a PTY master (portable_pty PtySize). -/
structure PtySize where
  rows : Nat
  cols : Nat
  pixelWidth : Nat
  pixelHeight : Nat
deriving DecidableEq, Repr

/-- ManagedProcess from state.rs.  The child handle is represented by its
    optional OS pid (`child.id()`), the PTY master by its terminal size, and
    the PTY writer by the list of strings written to it so far. -/
structure ManagedProcess where
  childId : Option Nat
  manuallyStopped : Bool
  sessionId : Option String
  groupId : String
  ptyMaster : Option PtySize
  ptyWriter : Option (List String)
  isInteractive : Bool
  realPid : Option Nat
deriving DecidableEq, Repr

/-- ProcessInfo status projection from models.rs. -/
structure ProcessInfo where
  projectId : String
  status : ProcessStatus
  pid : Option Nat
  cpuUsage : Rat
  memoryUsage : Nat
deriving DecidableEq, Repr

/-- One row of the sessions table (id, project, exit classification;
    timestamps are irrelevant to the claims). `exitStatus = none` means the
    session is still open. -/
structure SessionRec where
  id : String
  projectId : String
  exitStatus : Option String
deriving DecidableEq, Repr

/-- Events emitted to the UI sink. -/
inductive Event where
  | statusChanged (info : ProcessInfo)
deriving DecidableEq, Repr

/-- Signals delivered through the platform adapter. -/
inductive SignalEvent where
  | graceful (pid : Nat)
  | forceKill (pid : Nat)
deriving DecidableEq, Repr

/-- Association-list lookup keyed on the first component. -/
def lookupKey {α : Type} (k : String) : List (String × α) → Option α
  | [] => none
  | (k₂, v) :: rest => if k₂ = k then some v else lookupKey k rest

/-- Remove every binding of a key (observable behaviour of HashMap remove). -/
def eraseKey {α : Type} (k : String) : List (String × α) → List (String × α)
  | [] => []
  | (k₂, v) :: rest => if k₂ = k then eraseKey k rest else (k₂, v) :: eraseKey k rest

/-- Insert/replace a binding (observable behaviour of HashMap insert). -/
def insertKey {α : Type} (k : String) (v : α) (m : List (String × α)) : List (String × α) :=
  (k, v) :: eraseKey k m

/-- Mutate-in-place of an existing binding (Rust `get_mut` followed by field
    assignment); absent keys are untouched. -/
def modifyKey {α : Type} (k : String) (f : α → α) : List (String × α) → List (String × α)
  | [] => []
  | (k₂, v) :: rest =>
      if k₂ = k then (k₂, f v) :: modifyKey k f rest else (k₂, v) :: modifyKey k f rest

theorem lookupKey_insert_self {α : Type} (k : String) (v : α) (m : List (String × α)) :
    lookupKey k (insertKey k v m) = some v := by
  simp [insertKey, lookupKey]

theorem lookupKey_erase_self {α : Type} (k : String) (m : List (String × α)) :
    lookupKey k (eraseKey k m) = none := by
  induction m with
  | nil => rfl
  | cons p rest ih =>
      obtain ⟨a, b⟩ := p
      by_cases h : a = k
      · simpa [eraseKey, h] using ih
      · simpa [eraseKey, lookupKey, h] using ih

theorem lookupKey_erase_ne {α : Type} (k k₂ : String) (m : List (String × α)) (h : k₂ ≠ k) :
    lookupKey k₂ (eraseKey k m) = lookupKey k₂ m := by
  induction m with
  | nil => rfl
  | cons p rest ih =>
      obtain ⟨a, b⟩ := p
      by_cases hp : a = k
      · subst hp
        have ha : ¬ (a = k₂) := fun hk => h hk.symm
        simp only [eraseKey, if_pos rfl, lookupKey, if_neg ha]
        exact ih
      · simp only [eraseKey, if_neg hp, lookupKey]
        by_cases hq : a = k₂
        · rw [if_pos hq, if_pos hq]
        · rw [if_neg hq, if_neg hq]
          exact ih

theorem lookupKey_insert_ne {α : Type} (k k₂ : String) (v : α) (m : List (String × α))
    (h : k₂ ≠ k) : lookupKey k₂ (insertKey k v m) = lookupKey k₂ m := by
  have hne : ¬ (k = k₂) := fun hk => h hk.symm
  simp only [insertKey, lookupKey, if_neg hne]
  exact lookupKey_erase_ne k k₂ m h

theorem lookupKey_modify_self {α : Type} (k : String) (f : α → α) (m : List (String × α)) :
    lookupKey k (modifyKey k f m) = (lookupKey k m).map f := by
  induction m with
  | nil => rfl
  | cons p rest ih =>
      obtain ⟨a, b⟩ := p
      by_cases h : a = k
      · subst h
        simp [modifyKey, lookupKey]
      · simp only [modifyKey, if_neg h, lookupKey]
        exact ih

theorem lookupKey_modify_ne {α : Type} (k k₂ : String) (f : α → α) (m : List (String × α))
    (h : k₂ ≠ k) : lookupKey k₂ (modifyKey k f m) = lookupKey k₂ m := by
  induction m with
  | nil => rfl
  | cons p rest ih =>
      obtain ⟨a, b⟩ := p
      by_cases hp : a = k
      · subst hp
        have ha : ¬ (a = k₂) := fun hk => h hk.symm
        simp only [modifyKey, if_pos rfl, lookupKey, if_neg ha]
        exact ih
      · simp only [modifyKey, if_neg hp, lookupKey]
        by_cases hq : a = k₂
        · rw [if_pos hq, if_pos hq]
        · rw [if_neg hq, if_neg hq]
          exact ih

/-- Shared mutable engine state (AppState from state.rs, restricted to the
fields the orchestration engine touches), plus effect logs: UI events and
delivered signals. -/
structure AppState where
  processes : List (String × ManagedProcess)
  processInfos : List (String × ProcessInfo)
  activeSessions : List (String × String)
  pidLedger : List Nat
  sessions : List SessionRec
  events : List Event
  signals : List SignalEvent
  pendingForceKills : List Nat
deriving DecidableEq, Repr

/-- emit_status_update from process/mod.rs: builds a ProcessInfo with zeroed
    counters and emits a process-status-changed event. -/
def emitStatusUpdate (st : AppState) (projectId : String) (status : ProcessStatus)
    (pid : Option Nat) : AppState :=
  { st with events := st.events ++ [Event.statusChanged ⟨projectId, status, pid, 0, 0⟩] }

/-- Result of `child.try_wait()` on the non-interactive path: the child has
    exited (with a success flag), is still running, or the call failed with an
    I/O error. -/
inductive TryWaitResult where
  | exited (success : Bool)
  | stillRunning
  | ioError
deriving DecidableEq, Repr

/-- What the watcher can observe from the platform on one 100 ms poll tick:
    the result of `is_process_running(real_pid)` (interactive path) and of
    `try_wait` (non-interactive path). -/
structure TickObs where
  realPidRunning : Bool
  tryWait : TryWaitResult
deriving DecidableEq, Repr

/-- The tuple the watcher loop in watcher.rs breaks with:
    (manually_stopped, exit_success, session_id, group_id, pid). -/
structure ExitDecision where
  manuallyStopped : Bool
  exitSuccess : Bool
  sessionId : Option String
  groupId : String
  pid : Option Nat
deriving DecidableEq, Repr

/-- Outcome of one iteration of the watcher loop body. -/
inductive PollOutcome where
  | removedSilently
  | keepWaiting
  | decided (d : ExitDecision)
deriving DecidableEq, Repr

/-- One iteration of the polling loop of watch_exit (watcher.rs lines 26-80):
    given the registry entry for the project at this tick (None if another
    path already reaped it) and the platform observations, either return
    silently, keep waiting, or break with the exit decision.  The branch
    structure mirrors the source: interactive entries first check the
    manual-stop flag, then probe the real pid; non-interactive entries match
    on `try_wait`. -/
def watchExitPoll : Option ManagedProcess → TickObs → PollOutcome
  | none, _ => PollOutcome.removedSilently
  | some managed, obs =>
      if managed.isInteractive then
        if managed.manuallyStopped then
          PollOutcome.decided
            ⟨true, true, managed.sessionId, managed.groupId, managed.realPid⟩
        else
          match managed.realPid with
          | some realPid =>
              if !obs.realPidRunning then
                PollOutcome.decided
                  ⟨false, false, managed.sessionId, managed.groupId, some realPid⟩
              else
                PollOutcome.keepWaiting
          | none => PollOutcome.keepWaiting
      else
        match obs.tryWait with
        | TryWaitResult.exited success =>
            PollOutcome.decided
              ⟨managed.manuallyStopped, success, managed.sessionId, managed.groupId,
                managed.childId⟩
        | TryWaitResult.stillRunning => PollOutcome.keepWaiting
        | TryWaitResult.ioError =>
            PollOutcome.decided
              ⟨managed.manuallyStopped, false, managed.sessionId, managed.groupId,
                managed.childId⟩

/-- Terminal status computed by watch_exit (watcher.rs lines 88-92):
    Stopped if manually stopped or the exit was a success, Errored otherwise. -/
def exitStatusOf (d : ExitDecision) : ProcessStatus :=
  if d.manuallyStopped || d.exitSuccess then ProcessStatus.stopped else ProcessStatus.errored

/-- Session exit classification string computed by watch_exit
    (watcher.rs lines 96-102). -/
def exitClassOf (d : ExitDecision) : String :=
  if d.manuallyStopped then "stopped"
  else if d.exitSuccess then "stopped"
  else "errored"

/-- Post-determination processing of watch_exit (watcher.rs lines 39/48/64/73
    and 83-121): remove the registry entry (done at the loop break in the
    source), prune the pid from the ledger, end the session and clear the
    active-session mapping (both guarded on the session id being present, as
    in the source), update the surviving ProcessInfo entry in place to the
    terminal status with pid cleared and counters zeroed, and emit a
    status-changed event. -/
def watchExitFinalize (st : AppState) (projectId : String) (d : ExitDecision) : AppState :=
  let st := { st with processes := eraseKey projectId st.processes }
  let st :=
    match d.pid with
    | some p => { st with pidLedger := st.pidLedger.filter (fun q => q ≠ p) }
    | none => st
  let status := exitStatusOf d
  let st :=
    match d.sessionId with
    | some sid =>
        let st :=
          { st with
              sessions :=
                st.sessions.map (fun (s : SessionRec) =>
                  if s.id = sid then { s with exitStatus := some (exitClassOf d) } else s) }
        { st with activeSessions := eraseKey projectId st.activeSessions }
    | none => st
  let st :=
    { st with
        processInfos :=
          modifyKey projectId
            (fun info =>
              { info with
                  status := status
                  pid := none
                  cpuUsage := 0
                  memoryUsage := 0 })
            st.processInfos }
  emitStatusUpdate st projectId status none

/-- stop_process from lifecycle.rs lines 10-40: fail with ProcessNotRunning if
    no registry entry exists; otherwise set `manually_stopped := true` first,
    then send the graceful signal to the group (real pid for PTY processes,
    child id otherwise) and schedule a delayed force kill.  The flag is set
    before any signal goes out, matching the source order. -/
def stopProcess (st : AppState) (projectId : String) : AppState × Except Error Unit :=
  match lookupKey projectId st.processes with
  | none => (st, Except.error (Error.processNotRunning projectId))
  | some managed =>
      let st :=
        { st with
            processes :=
              modifyKey projectId (fun m => { m with manuallyStopped := true }) st.processes }
      let pidToKill := if managed.isInteractive then managed.realPid else managed.childId
      let st :=
        match pidToKill with
        | some p =>
            { st with
                signals := st.signals ++ [SignalEvent.graceful p]
                pendingForceKills := st.pendingForceKills ++ [p] }
        | none => st
      (st, Except.ok ())

/-- Outcomes of the fallible external steps of one spawn attempt, fixed up
    front: the fresh session id the database would mint, whether session
    creation succeeds, whether the child/PTY launch steps succeed, and the
    OS pids involved. -/
structure SpawnEnv where
  newSessionId : String
  createSessionOk : Bool
  spawnOk : Bool
  spawnedPid : Option Nat
  ptyOpenOk : Bool
  ptySpawnOk : Bool
  ptyPid : Option Nat
  cloneReaderOk : Bool
  takeWriterOk : Bool
  dummyChildId : Option Nat
deriving DecidableEq, Repr

/-- spawn_regular_process from spawn.rs lines 15-114: spawn through the shell
    with piped stdio; on failure return SpawnError; on success persist the pid
    to the ledger, insert the ManagedProcess and the Running ProcessInfo, and
    emit the status event.  The output reader tasks have no effect on the
    state modelled here. -/
def spawnRegularProcess (env : SpawnEnv) (st : AppState) (projectId groupId : String)
    (sessionId : String) : AppState × Except Error Unit :=
  if !env.spawnOk then
    (st, Except.error (Error.spawnError "spawn failed"))
  else
    let pid := env.spawnedPid
    let st :=
      match pid with
      | some p => { st with pidLedger := st.pidLedger ++ [p] }
      | none => st
    let managed : ManagedProcess :=
      { childId := pid
        manuallyStopped := false
        sessionId := some sessionId
        groupId := groupId
        ptyMaster := none
        ptyWriter := none
        isInteractive := false
        realPid := pid }
    let st := { st with processes := insertKey projectId managed st.processes }
    let st :=
      { st with
          processInfos :=
            insertKey projectId
              ⟨projectId, ProcessStatus.running, pid, 0, 0⟩ st.processInfos }
    (emitStatusUpdate st projectId ProcessStatus.running pid, Except.ok ())

/-- spawn_interactive_process from spawn.rs lines 117-272: open a PTY at
    80×24, spawn the command in the slave, persist the real pid, clone the
    reader and take the writer (each step fallible, each failure a
    SpawnError), then insert the ManagedProcess (with a dummy child handle),
    the Running ProcessInfo, and emit the status event.  Note the pid is
    written to the ledger before the reader/writer acquisition steps, exactly
    as in the source. -/
def spawnInteractiveProcess (env : SpawnEnv) (st : AppState) (projectId groupId : String)
    (sessionId : String) : AppState × Except Error Unit :=
  if !env.ptyOpenOk then
    (st, Except.error (Error.spawnError "Failed to open PTY"))
  else if !env.ptySpawnOk then
    (st, Except.error (Error.spawnError "Failed to spawn PTY command"))
  else
    let pid := env.ptyPid
    let st :=
      match pid with
      | some p => { st with pidLedger := st.pidLedger ++ [p] }
      | none => st
    if !env.cloneReaderOk then
      (st, Except.error (Error.spawnError "Failed to clone PTY reader"))
    else if !env.takeWriterOk then
      (st, Except.error (Error.spawnError "Failed to get PTY writer"))
    else
      let managed : ManagedProcess :=
        { childId := env.dummyChildId
          manuallyStopped := false
          sessionId := some sessionId
          groupId := groupId
          ptyMaster := some ⟨24, 80, 0, 0⟩
          ptyWriter := some []
          isInteractive := true
          realPid := pid }
      let st := { st with processes := insertKey projectId managed st.processes }
      let st :=
        { st with
            processInfos :=
              insertKey projectId
                ⟨projectId, ProcessStatus.running, pid, 0, 0⟩ st.processInfos }
      (emitStatusUpdate st projectId ProcessStatus.running pid, Except.ok ())

/-- spawn_process from process/mod.rs lines 26-109: refuse if an entry for
    the project already exists; otherwise create a session, record it as the
    active session, and run the interactive or regular spawner.  Errors after
    the registry check propagate without undoing earlier steps, exactly as
    the `?` operator does in the source. -/
def spawnProcess (env : SpawnEnv) (st : AppState) (projectId groupId : String)
    (interactive : Bool) : AppState × Except Error Unit :=
  if (lookupKey projectId st.processes).isSome then
    (st, Except.error (Error.processAlreadyRunning projectId))
  else if !env.createSessionOk then
    (st, Except.error (Error.databaseError "create_session failed"))
  else
    let sessionId := env.newSessionId
    let st :=
      { st with sessions := st.sessions ++ [(⟨sessionId, projectId, none⟩ : SessionRec)] }
    let st := { st with activeSessions := insertKey projectId sessionId st.activeSessions }
    if interactive then
      spawnInteractiveProcess env st projectId groupId sessionId
    else
      spawnRegularProcess env st projectId groupId sessionId

/-- Project row as re-read from the configuration database by the watcher
    before a debounced restart (only the fields that decide the restart). -/
structure DbProject where
  id : String
  autoRestart : Bool
  projectType : ProjectType
deriving DecidableEq, Repr

/-- Group row holding its projects, as returned by `db.get_groups()`. -/
structure DbGroup where
  projects : List DbProject
deriving DecidableEq, Repr

/-- Re-read of the live restart settings (watcher.rs lines 129-138): flatten
    all groups, find the project by id, take its (auto_restart, project_type),
    defaulting to (false, Service) when absent; a database error is modelled
    by `dbGroups = none` and hits the same default through
    `unwrap_or_default`. -/
def dbProjectLookup (dbGroups : Option (List DbGroup)) (projectId : String) :
    Bool × ProjectType :=
  let groups := dbGroups.getD []
  (((groups.flatMap (fun g => g.projects)).find? (fun p => p.id == projectId)).map
      (fun p => (p.autoRestart, p.projectType))).getD
    (false, ProjectType.service)

/-- The pre-debounce auto-restart gate (watcher.rs line 125): auto_restart
    requested at spawn, not manually stopped, successful exit, and the
    spawn-time project type is Service. -/
def autoRestartGate (autoRestart manuallyStopped exitSuccess : Bool)
    (projectType : ProjectType) : Bool :=
  autoRestart && !manuallyStopped && exitSuccess &&
    (projectType == ProjectType.service)

/-- The post-debounce decision (watcher.rs lines 141-148): the re-read
    auto_restart must still hold, the re-read type must still be Service, and
    no concurrent respawn may have re-populated the registry. -/
def debounceRestart (dbGroups : Option (List DbGroup)) (projectId : String)
    (alreadyRunning : Bool) : Bool :=
  let rc := dbProjectLookup dbGroups projectId
  rc.1 && (rc.2 == ProjectType.service) && !alreadyRunning

/-- Whether watch_exit reaches the `spawn_process` re-invocation: the
    spawn-time gate must pass and the post-debounce re-validation must pass. -/
def autoRestartAttempted (autoRestart : Bool) (d : ExitDecision)
    (projectType : ProjectType) (dbGroups : Option (List DbGroup)) (projectId : String)
    (alreadyRunning : Bool) : Bool :=
  autoRestartGate autoRestart d.manuallyStopped d.exitSuccess projectType &&
    debounceRestart dbGroups projectId alreadyRunning

/-- kill_orphaned_processes from lifecycle.rs lines 209-213 together with the
    Linux platform adapter (platform/linux.rs lines 13-24): read the stored
    pids, probe each recorded process group for liveness (signal 0) and
    force-kill exactly those still alive, then clear the pid file. -/
def killOrphanedProcesses (alive : Nat → Bool) (st : AppState) : AppState :=
  let killed := st.pidLedger.filter (fun p => alive p)
  { st with
      signals := st.signals ++ killed.map SignalEvent.forceKill
      pidLedger := [] }

/-- write_to_process_stdin from io.rs lines 65-85: ProcessNotRunning when no
    entry exists; when the entry has a PTY writer, write and flush (either of
    which can fail with an I/O error, modelled by `writeOk`); when it has no
    writer, return success without touching anything. -/
def writeToProcessStdin (writeOk : Bool) (st : AppState) (projectId : String)
    (data : String) : AppState × Except Error Unit :=
  match lookupKey projectId st.processes with
  | none => (st, Except.error (Error.processNotRunning projectId))
  | some managed =>
      match managed.ptyWriter with
      | some _ =>
          if writeOk then
            ({ st with
                processes :=
                  modifyKey projectId
                    (fun m =>
                      { m with ptyWriter := some ((m.ptyWriter.getD []) ++ [data]) })
                    st.processes },
              Except.ok ())
          else
            (st, Except.error Error.ioError)
      | none => (st, Except.ok ())

/-- resize_pty from io.rs lines 88-112: ProcessNotRunning when no entry
    exists; when the entry has a PTY master, resize it to the requested
    dimensions (fallible, a failure is a PtyError); when it has no master,
    return success without touching anything. -/
def resizePty (resizeOk : Bool) (st : AppState) (projectId : String)
    (cols rows : Nat) : AppState × Except Error Unit :=
  match lookupKey projectId st.processes with
  | none => (st, Except.error (Error.processNotRunning projectId))
  | some managed =>
      match managed.ptyMaster with
      | some _ =>
          if resizeOk then
            ({ st with
                processes :=
                  modifyKey projectId
                    (fun m => { m with ptyMaster := some ⟨rows, cols, 0, 0⟩ })
                    st.processes },
              Except.ok ())
          else
            (st, Except.error (Error.ptyError "resize failed"))
      | none => (st, Except.ok ())

/-- One row of the OS process table as visible to the stats sampler
    (stats_collector.rs): the sysinfo data (pid, parent, per-core cpu
    percentage, raw RSS) plus the Linux-only /proc readings: the `Tgid:` and
    `Pid:` values parsed from /proc/pid/status (none when the file is
    unreadable or the line missing) and the (resident, shared) page counts
    parsed from /proc/pid/statm (none when unreadable).  CPU percentages are
    modelled as rationals. -/
structure ProcEntry where
  pid : Nat
  parent : Option Nat
  cpu : Rat
  rss : Nat
  statusTgid : Option Nat
  statusPid : Option Nat
  statmResidentShared : Option (Nat × Nat)
deriving DecidableEq, Repr

/-- sys.process(pid): look a pid up in the process table. -/
def sysProcess (sys : List ProcEntry) (pid : Nat) : Option ProcEntry :=
  sys.find? (fun e => e.pid == pid)

/-- is_thread from stats_collector.rs lines 29-47: true exactly when both the
    Tgid and Pid values were read and differ; unreadable status data means
    "not a thread". -/
def isThread (e : ProcEntry) : Bool :=
  match e.statusTgid, e.statusPid with
  | some t, some p => t != p
  | _, _ => false

/-- read_private_memory from stats_collector.rs lines 11-23: resident minus
    shared pages (saturating), times the page size; none when statm is
    unreadable or the page size query fails (modelled by pageSize = 0). -/
def readPrivateMemory (pageSize : Nat) (e : ProcEntry) : Option Nat :=
  if pageSize = 0 then none
  else e.statmResidentShared.map (fun rs => (rs.1 - rs.2) * pageSize)

/-- The inner child scan of aggregate_process_tree (stats_collector.rs lines
    79-83): walk the whole process table and append every entry whose parent
    is the current pid and which is not already in the visit list; the
    membership check runs against the growing list, as in the source. -/
def pushChildren (sys : List ProcEntry) (parent : Nat) (tree : List Nat) : List Nat :=
  sys.foldl
    (fun acc e =>
      if e.parent == some parent && !(acc.contains e.pid) then acc ++ [e.pid] else acc)
    tree

/-- The fused BFS-and-accumulate loop of aggregate_process_tree
    (stats_collector.rs lines 58-85), with an explicit fuel bound standing in
    for the implicit termination of the Rust while loop (the visit list grows
    only with new pids from the table, so `sys.length + 2` iterations always
    suffice; see aggregateLoop_visits).  Returns the accumulated per-core cpu
    sum, the accumulated memory sum and the final visit list. -/
def aggregateLoop (isLinux : Bool) (pageSize : Nat) (sys : List ProcEntry) :
    Nat → List Nat → Nat → Rat → Nat → (Rat × Nat × List Nat)
  | 0, tree, _, cpu, mem => (cpu, mem, tree)
  | fuel + 1, tree, i, cpu, mem =>
      if h : i < tree.length then
        let parentPid := tree.get ⟨i, h⟩
        let acc :=
          match sysProcess sys parentPid with
          | some p =>
              let cpu := cpu + p.cpu
              let mem :=
                if isLinux then
                  if !(isThread p) then mem + (readPrivateMemory pageSize p).getD p.rss
                  else mem
                else mem + p.rss
              (cpu, mem)
          | none => (cpu, mem)
        aggregateLoop isLinux pageSize sys fuel (pushChildren sys parentPid tree) (i + 1)
          acc.1 acc.2
      else (cpu, mem, tree)

/-- The visit order of the loop in isolation: the list of pids whose table
    entries get accumulated, in the order they are processed. -/
def visitLoop (sys : List ProcEntry) : Nat → List Nat → Nat → List Nat
  | 0, _, _ => []
  | fuel + 1, tree, i =>
      if h : i < tree.length then
        tree.get ⟨i, h⟩ :: visitLoop sys fuel (pushChildren sys (tree.get ⟨i, h⟩) tree) (i + 1)
      else []

/-- The final visit list of the loop in isolation. -/
def bfsLoop (sys : List ProcEntry) : Nat → List Nat → Nat → List Nat
  | 0, tree, _ => tree
  | fuel + 1, tree, i =>
      if h : i < tree.length then
        bfsLoop sys fuel (pushChildren sys (tree.get ⟨i, h⟩) tree) (i + 1)
      else tree

/-- CPU contribution of a visited pid: the per-core percentage of its table
    entry, nothing when the pid has no entry. -/
def cpuContribution (sys : List ProcEntry) (pid : Nat) : Rat :=
  match sysProcess sys pid with
  | some p => p.cpu
  | none => 0

/-- Memory contribution of a visited pid: on Linux, zero for thread entries
    and private-memory-with-RSS-fallback for process leaders; on other
    platforms, raw RSS; nothing when the pid has no entry. -/
def memContribution (isLinux : Bool) (pageSize : Nat) (sys : List ProcEntry)
    (pid : Nat) : Nat :=
  match sysProcess sys pid with
  | some p =>
      if isLinux then
        if isThread p then 0 else (readPrivateMemory pageSize p).getD p.rss
      else p.rss
  | none => 0

/-- aggregate_process_tree from stats_collector.rs lines 53-91: run the fused
    loop from the root with adequate fuel and normalise the cpu sum by the
    logical core count. -/
def aggregateProcessTree (isLinux : Bool) (pageSize : Nat) (sys : List ProcEntry)
    (rootPid : Nat) (numCpus : Rat) : Rat × Nat :=
  let r := aggregateLoop isLinux pageSize sys (sys.length + 2) [rootPid] 0 0 0
  (r.1 / numCpus, r.2.1)

/-- The pids visited by one aggregate_process_tree run. -/
def visitedPids (sys : List ProcEntry) (rootPid : Nat) : List Nat :=
  visitLoop sys (sys.length + 2) [rootPid] 0

theorem exitStatus_stopped_iff (d : ExitDecision) :
    exitStatusOf d = ProcessStatus.stopped ↔ (d.manuallyStopped || d.exitSuccess) = true := by
  unfold exitStatusOf
  by_cases h : (d.manuallyStopped || d.exitSuccess) = true
  · simp [h]
  · simp [h]

theorem exitStatus_errored_iff (d : ExitDecision) :
    exitStatusOf d = ProcessStatus.errored ↔ (d.manuallyStopped || d.exitSuccess) = false := by
  unfold exitStatusOf
  by_cases h : (d.manuallyStopped || d.exitSuccess) = true
  · simp [h]
  · simp only [Bool.not_eq_true] at h
    simp [h]

theorem exitClass_eq_of_status (d : ExitDecision) :
    exitClassOf d = (if exitStatusOf d = ProcessStatus.stopped then "stopped" else "errored") := by
  unfold exitClassOf exitStatusOf
  cases hms : d.manuallyStopped <;> cases hes : d.exitSuccess <;> simp

theorem exitClass_stopped_iff (d : ExitDecision) :
    exitClassOf d = "stopped" ↔ exitStatusOf d = ProcessStatus.stopped := by
  rw [exitClass_eq_of_status]
  by_cases h : exitStatusOf d = ProcessStatus.stopped
  · simp [h]
  · simp [h]

theorem exitClass_errored_iff (d : ExitDecision) :
    exitClassOf d = "errored" ↔ exitStatusOf d = ProcessStatus.errored := by
  rw [exitClass_eq_of_status]
  by_cases h : exitStatusOf d = ProcessStatus.stopped
  · rw [if_pos h]
    constructor
    · intro hcon
      exact absurd hcon (by decide)
    · intro hcon
      rw [hcon] at h
      cases h
  · rw [if_neg h]
    constructor
    · intro _
      unfold exitStatusOf at h ⊢
      by_cases hc : (d.manuallyStopped || d.exitSuccess) = true
      · exact absurd (by simp [hc]) h
      · simp only [Bool.not_eq_true] at hc
        simp [hc]
    · intro _
      rfl

theorem poll_decided_manuallyStopped (m : ManagedProcess) (obs : TickObs) (d : ExitDecision)
    (hms : m.manuallyStopped = true)
    (hdec : watchExitPoll (some m) obs = PollOutcome.decided d) :
    d.manuallyStopped = true := by
  simp only [watchExitPoll] at hdec
  by_cases hint : m.isInteractive = true
  · rw [if_pos hint, if_pos hms] at hdec
    cases hdec
    rfl
  · rw [Bool.not_eq_true] at hint
    rw [hint] at hdec
    simp only [Bool.false_eq_true, if_false] at hdec
    cases htw : obs.tryWait with
    | exited success =>
        rw [htw] at hdec
        cases hdec
        exact hms
    | stillRunning =>
        rw [htw] at hdec
        cases hdec
    | ioError =>
        rw [htw] at hdec
        cases hdec
        exact hms

theorem stopProcess_ok_of_entry (st : AppState) (p : String) (m : ManagedProcess)
    (hm : lookupKey p st.processes = some m) :
    (stopProcess st p).2 = Except.ok () ∧
    (stopProcess st p).1.processes =
      modifyKey p (fun mm => { mm with manuallyStopped := true }) st.processes ∧
    (stopProcess st p).1.processInfos = st.processInfos ∧
    (stopProcess st p).1.events = st.events ∧
    (stopProcess st p).1.pidLedger = st.pidLedger := by
  unfold stopProcess
  rw [hm]
  cases hkill : (if m.isInteractive then m.realPid else m.childId) with
  | none => simp [hkill]
  | some q => simp [hkill]

theorem stopProcess_sets_flag (st : AppState) (p : String) (m : ManagedProcess)
    (hm : lookupKey p st.processes = some m) :
    lookupKey p (stopProcess st p).1.processes =
      some { m with manuallyStopped := true } := by
  have h := (stopProcess_ok_of_entry st p m hm).2.1
  rw [h, lookupKey_modify_self, hm]
  rfl

/-- Claim C1: whenever the exit watcher observes an exit and breaks with a
decision, the terminal status is Stopped exactly when the manual-stop flag was
set or the exit succeeded and Errored otherwise (a try_wait I/O error on the
non-interactive path surfaces as an unsuccessful exit), the session exit
classification is "stopped" exactly for Stopped and "errored" exactly for
Errored, and after stop_process has run on a registered process every
subsequently observed exit decision classifies as Stopped / "stopped". -/
theorem watch_exit_classifies_stop_or_error :
    (∀ (m : ManagedProcess) (obs : TickObs) (d : ExitDecision),
        watchExitPoll (some m) obs = PollOutcome.decided d →
        ((exitStatusOf d = ProcessStatus.stopped ↔
            (d.manuallyStopped || d.exitSuccess) = true) ∧
         (exitStatusOf d = ProcessStatus.errored ↔
            (d.manuallyStopped || d.exitSuccess) = false) ∧
         (exitClassOf d = "stopped" ↔ exitStatusOf d = ProcessStatus.stopped) ∧
         (exitClassOf d = "errored" ↔ exitStatusOf d = ProcessStatus.errored))) ∧
    (∀ (m : ManagedProcess) (obs : TickObs),
        m.isInteractive = false → obs.tryWait = TryWaitResult.ioError →
        watchExitPoll (some m) obs =
          PollOutcome.decided
            ⟨m.manuallyStopped, false, m.sessionId, m.groupId, m.childId⟩) ∧
    (∀ (st : AppState) (p : String) (m : ManagedProcess) (obs : TickObs) (d : ExitDecision),
        lookupKey p st.processes = some m →
        watchExitPoll (lookupKey p (stopProcess st p).1.processes) obs =
          PollOutcome.decided d →
        exitStatusOf d = ProcessStatus.stopped ∧ exitClassOf d = "stopped") := by
  refine ⟨?_, ?_, ?_⟩
  · intro m obs d _
    exact ⟨exitStatus_stopped_iff d, exitStatus_errored_iff d,
      exitClass_stopped_iff d, exitClass_errored_iff d⟩
  · intro m obs hint htw
    simp only [watchExitPoll]
    rw [hint]
    simp only [Bool.false_eq_true, if_false]
    rw [htw]
  · intro st p m obs d hm hdec
    rw [stopProcess_sets_flag st p m hm] at hdec
    have hd := poll_decided_manuallyStopped _ obs d rfl hdec
    have hstat : exitStatusOf d = ProcessStatus.stopped := by
      rw [exitStatus_stopped_iff, hd]
      rfl
    exact ⟨hstat, (exitClass_stopped_iff d).mpr hstat⟩

/-- Witness for C1: a concrete non-interactive registered process is stopped
and then observed exiting with a nonzero code; the decision still classifies
as Stopped and "stopped". -/
theorem watch_exit_classifies_stop_or_error_witness :
    exitStatusOf ⟨true, false, some "s1", "g1", some 42⟩ = ProcessStatus.stopped ∧
    exitClassOf ⟨true, false, some "s1", "g1", some 42⟩ = "stopped" := by
  have h := watch_exit_classifies_stop_or_error.2.2
    { processes :=
        [("p1",
          { childId := some 42, manuallyStopped := false, sessionId := some "s1",
            groupId := "g1", ptyMaster := none, ptyWriter := none,
            isInteractive := false, realPid := some 42 })]
      processInfos := []
      activeSessions := []
      pidLedger := [42]
      sessions := []
      events := []
      signals := []
      pendingForceKills := [] }
    "p1"
    { childId := some 42, manuallyStopped := false, sessionId := some "s1",
      groupId := "g1", ptyMaster := none, ptyWriter := none,
      isInteractive := false, realPid := some 42 }
    ⟨true, TryWaitResult.exited false⟩
    ⟨true, false, some "s1", "g1", some 42⟩
    rfl
    rfl
  exact h

/-- Claim C9: an interactive (PTY) process that exits on its own, with the
manual-stop flag unset when the watcher observes the real pid gone, is always
decided as an unsuccessful exit: terminal status Errored, session closed as
"errored", and the auto-restart gate can never fire for it. -/
theorem interactive_self_exit_always_errored (m : ManagedProcess) (obs : TickObs)
    (d : ExitDecision) (hint : m.isInteractive = true) (hms : m.manuallyStopped = false)
    (hdec : watchExitPoll (some m) obs = PollOutcome.decided d) :
    d.manuallyStopped = false ∧ d.exitSuccess = false ∧
    exitStatusOf d = ProcessStatus.errored ∧ exitClassOf d = "errored" ∧
    (∀ (autoRestart : Bool) (pt : ProjectType) (dbGroups : Option (List DbGroup))
        (projectId : String) (alreadyRunning : Bool),
        autoRestartAttempted autoRestart d pt dbGroups projectId alreadyRunning = false) := by
  simp only [watchExitPoll] at hdec
  rw [if_pos hint] at hdec
  rw [hms] at hdec
  simp only [Bool.false_eq_true, if_false] at hdec
  cases hrp : m.realPid with
  | none =>
      rw [hrp] at hdec
      cases hdec
  | some realPid =>
      rw [hrp] at hdec
      by_cases hrun : obs.realPidRunning = true
      · rw [hrun] at hdec
        simp only [Bool.not_true, Bool.false_eq_true, if_false] at hdec
        cases hdec
      · rw [Bool.not_eq_true] at hrun
        rw [hrun] at hdec
        simp only [Bool.not_false, if_true] at hdec
        cases hdec
        refine ⟨rfl, rfl, by rw [exitStatus_errored_iff]; rfl, ?_, ?_⟩
        · rw [exitClass_errored_iff, exitStatus_errored_iff]
          rfl
        · intro autoRestart pt dbGroups projectId alreadyRunning
          unfold autoRestartAttempted autoRestartGate
          simp

/-- Witness for C9: a concrete interactive service process whose real pid is
observed gone while auto_restart is on; the decision is Errored and no restart
fires. -/
theorem interactive_self_exit_always_errored_witness :
    exitStatusOf ⟨false, false, some "s2", "g1", some 77⟩ = ProcessStatus.errored ∧
    autoRestartAttempted true ⟨false, false, some "s2", "g1", some 77⟩
      ProjectType.service
      (some [⟨[⟨"p2", true, ProjectType.service⟩]⟩]) "p2" false = false := by
  have h := interactive_self_exit_always_errored
    { childId := none, manuallyStopped := false, sessionId := some "s2",
      groupId := "g1", ptyMaster := some ⟨24, 80, 0, 0⟩, ptyWriter := some [],
      isInteractive := true, realPid := some 77 }
    ⟨false, TryWaitResult.stillRunning⟩
    ⟨false, false, some "s2", "g1", some 77⟩
    rfl rfl rfl
  exact ⟨h.2.2.1, h.2.2.2.2 true ProjectType.service
    (some [⟨[⟨"p2", true, ProjectType.service⟩]⟩]) "p2" false⟩

/-- Claim C3: when the registry already holds an entry for the project id,
spawn_process fails with ProcessAlreadyRunning and returns the state fully
unchanged (registry, process infos, active sessions, everything). -/
theorem spawn_already_running_unchanged (env : SpawnEnv) (st : AppState)
    (projectId groupId : String) (interactive : Bool) (m : ManagedProcess)
    (hm : lookupKey projectId st.processes = some m) :
    spawnProcess env st projectId groupId interactive =
      (st, Except.error (Error.processAlreadyRunning projectId)) := by
  unfold spawnProcess
  rw [hm]
  rfl

/-- Witness for C3: spawning a project that is already registered fails with
ProcessAlreadyRunning and the state is untouched. -/
theorem spawn_already_running_unchanged_witness :
    spawnProcess
      { newSessionId := "s9", createSessionOk := true, spawnOk := true,
        spawnedPid := some 9, ptyOpenOk := true, ptySpawnOk := true,
        ptyPid := some 9, cloneReaderOk := true, takeWriterOk := true,
        dummyChildId := none }
      { processes :=
          [("p1",
            { childId := some 42, manuallyStopped := false, sessionId := some "s1",
              groupId := "g1", ptyMaster := none, ptyWriter := none,
              isInteractive := false, realPid := some 42 })]
        processInfos := []
        activeSessions := [("p1", "s1")]
        pidLedger := [42]
        sessions := [⟨"s1", "p1", none⟩]
        events := []
        signals := []
        pendingForceKills := [] }
      "p1" "g1" false =
      ({ processes :=
           [("p1",
             { childId := some 42, manuallyStopped := false, sessionId := some "s1",
               groupId := "g1", ptyMaster := none, ptyWriter := none,
               isInteractive := false, realPid := some 42 })]
         processInfos := []
         activeSessions := [("p1", "s1")]
         pidLedger := [42]
         sessions := [⟨"s1", "p1", none⟩]
         events := []
         signals := []
         pendingForceKills := [] },
        Except.error (Error.processAlreadyRunning "p1")) := by
  exact spawn_already_running_unchanged _ _ "p1" "g1" false
    { childId := some 42, manuallyStopped := false, sessionId := some "s1",
      groupId := "g1", ptyMaster := none, ptyWriter := none,
      isInteractive := false, realPid := some 42 }
    rfl

theorem watchExitFinalize_eq (st : AppState) (projectId : String) (d : ExitDecision)
    (p : Nat) (sid : String) (hpid : d.pid = some p) (hsid : d.sessionId = some sid) :
    watchExitFinalize st projectId d =
      { processes := eraseKey projectId st.processes
        processInfos :=
          modifyKey projectId
            (fun info =>
              { info with
                  status := exitStatusOf d
                  pid := none
                  cpuUsage := 0
                  memoryUsage := 0 })
            st.processInfos
        activeSessions := eraseKey projectId st.activeSessions
        pidLedger := st.pidLedger.filter (fun q => q ≠ p)
        sessions :=
          st.sessions.map (fun (s : SessionRec) =>
            if s.id = sid then { s with exitStatus := some (exitClassOf d) } else s)
        events := st.events ++ [Event.statusChanged ⟨projectId, exitStatusOf d, none, 0, 0⟩]
        signals := st.signals
        pendingForceKills := st.pendingForceKills } := by
  unfold watchExitFinalize
  rw [hpid, hsid]
  rfl

/-- Claim C5: when the watcher has determined an exit (with a known pid and an
open session, as every spawned process has), the finalisation removes the pid
from the ledger, closes the session with the classification string, clears the
active-session mapping, removes the registry entry, rewrites the surviving
ProcessInfo entry to the terminal status with pid cleared and counters zeroed,
and emits exactly one status-changed event. -/
theorem watch_exit_finalize_effects (st : AppState) (projectId : String) (d : ExitDecision)
    (p : Nat) (sid : String) (info : ProcessInfo)
    (hpid : d.pid = some p) (hsid : d.sessionId = some sid)
    (hinfo : lookupKey projectId st.processInfos = some info) :
    p ∉ (watchExitFinalize st projectId d).pidLedger ∧
    lookupKey projectId (watchExitFinalize st projectId d).processes = none ∧
    lookupKey projectId (watchExitFinalize st projectId d).activeSessions = none ∧
    (∀ s ∈ (watchExitFinalize st projectId d).sessions, s.id = sid →
        s.exitStatus = some (exitClassOf d)) ∧
    lookupKey projectId (watchExitFinalize st projectId d).processInfos =
      some
        { info with
            status := exitStatusOf d
            pid := none
            cpuUsage := 0
            memoryUsage := 0 } ∧
    (watchExitFinalize st projectId d).events =
      st.events ++ [Event.statusChanged ⟨projectId, exitStatusOf d, none, 0, 0⟩] := by
  rw [watchExitFinalize_eq st projectId d p sid hpid hsid]
  refine ⟨?_, ?_, ?_, ?_, ?_, ?_⟩
  · intro hmem
    rw [List.mem_filter] at hmem
    have hneq := hmem.2
    simp at hneq
  · exact lookupKey_erase_self projectId st.processes
  · exact lookupKey_erase_self projectId st.activeSessions
  · intro s hs hid
    simp only [List.mem_map] at hs
    obtain ⟨s₀, _, hmap⟩ := hs
    by_cases h0 : s₀.id = sid
    · rw [if_pos h0] at hmap
      rw [← hmap]
    · rw [if_neg h0] at hmap
      rw [← hmap] at hid
      exact absurd hid h0
  · rw [lookupKey_modify_self, hinfo]
    rfl
  · rfl

/-- Witness for C5: finalising a concrete errored decision for a registered
project prunes pid 42, closes session s1 as "errored", clears the mappings
and rewrites the info entry. -/
theorem watch_exit_finalize_effects_witness :
    (42 : Nat) ∉
      (watchExitFinalize
        { processes := []
          processInfos := [("p1", ⟨"p1", ProcessStatus.running, some 42, 0, 0⟩)]
          activeSessions := [("p1", "s1")]
          pidLedger := [42, 7]
          sessions := [⟨"s1", "p1", none⟩]
          events := []
          signals := []
          pendingForceKills := [] }
        "p1" ⟨false, false, some "s1", "g1", some 42⟩).pidLedger ∧
    lookupKey "p1"
      (watchExitFinalize
        { processes := []
          processInfos := [("p1", ⟨"p1", ProcessStatus.running, some 42, 0, 0⟩)]
          activeSessions := [("p1", "s1")]
          pidLedger := [42, 7]
          sessions := [⟨"s1", "p1", none⟩]
          events := []
          signals := []
          pendingForceKills := [] }
        "p1" ⟨false, false, some "s1", "g1", some 42⟩).processInfos =
      some ⟨"p1", ProcessStatus.errored, none, 0, 0⟩ := by
  have h := watch_exit_finalize_effects
    { processes := []
      processInfos := [("p1", ⟨"p1", ProcessStatus.running, some 42, 0, 0⟩)]
      activeSessions := [("p1", "s1")]
      pidLedger := [42, 7]
      sessions := [⟨"s1", "p1", none⟩]
      events := []
      signals := []
      pendingForceKills := [] }
    "p1" ⟨false, false, some "s1", "g1", some 42⟩ 42 "s1"
    ⟨"p1", ProcessStatus.running, some 42, 0, 0⟩ rfl rfl rfl
  exact ⟨h.1, h.2.2.2.2.1⟩

/-- Claim C2: the auto-restart re-spawn is reached exactly when auto_restart
was requested at spawn, the stop was not manual, the exit succeeded, the
spawn-time type was Service, the post-debounce re-read of the live config
still shows auto_restart on and type Service, and no concurrent respawn
already repopulated the registry.  In particular a crash (unsuccessful exit),
a live auto_restart switch-off, or a live Service→Task conversion each
prevent the restart. -/
theorem auto_restart_gate_characterization (autoRestart : Bool) (d : ExitDecision)
    (pt : ProjectType) (dbGroups : Option (List DbGroup)) (projectId : String)
    (alreadyRunning : Bool) :
    autoRestartAttempted autoRestart d pt dbGroups projectId alreadyRunning = true ↔
      (autoRestart = true ∧ d.manuallyStopped = false ∧ d.exitSuccess = true ∧
       pt = ProjectType.service ∧
       (dbProjectLookup dbGroups projectId).1 = true ∧
       (dbProjectLookup dbGroups projectId).2 = ProjectType.service ∧
       alreadyRunning = false) := by
  unfold autoRestartAttempted autoRestartGate debounceRestart
  simp only [Bool.and_eq_true, Bool.not_eq_true', beq_iff_eq]
  constructor
  · intro h
    obtain ⟨⟨⟨⟨har, hms⟩, hes⟩, hptb⟩, ⟨hr1, hr2⟩, hrun⟩ := h
    exact ⟨har, hms, hes, hptb, hr1, hr2, hrun⟩
  · intro h
    obtain ⟨har, hms, hes, hptb, hr1, hr2, hrun⟩ := h
    exact ⟨⟨⟨⟨har, hms⟩, hes⟩, hptb⟩, ⟨hr1, hr2⟩, hrun⟩

/-- Witness for C2: with a clean Service exit and a live config still showing
auto_restart on a Service project, the restart fires; flipping the live type
to Task in the same situation blocks it. -/
theorem auto_restart_gate_characterization_witness :
    autoRestartAttempted true ⟨false, true, some "s2", "g1", some 7⟩ ProjectType.service
      (some [⟨[⟨"p2", true, ProjectType.service⟩]⟩]) "p2" false = true ∧
    autoRestartAttempted true ⟨false, true, some "s2", "g1", some 7⟩ ProjectType.service
      (some [⟨[⟨"p2", true, ProjectType.task⟩]⟩]) "p2" false = false := by
  constructor
  · exact (auto_restart_gate_characterization true ⟨false, true, some "s2", "g1", some 7⟩
      ProjectType.service (some [⟨[⟨"p2", true, ProjectType.service⟩]⟩]) "p2" false).mpr
      ⟨rfl, rfl, rfl, rfl, rfl, rfl, rfl⟩
  · by_contra hcon
    rw [Bool.not_eq_false] at hcon
    have h := (auto_restart_gate_characterization true ⟨false, true, some "s2", "g1", some 7⟩
      ProjectType.service (some [⟨[⟨"p2", true, ProjectType.task⟩]⟩]) "p2" false).mp hcon
    have : ProjectType.task = ProjectType.service := h.2.2.2.2.2.1
    cases this

/-- Claim C8: write_to_process_stdin and resize_pty fail with
ProcessNotRunning exactly when no registry entry exists for the project id;
with an entry, a write to a process without a PTY writer is a silent no-op,
a resize of a session without a PTY master is silently ignored, and a
successful resize mutates only the PTY master's terminal size. -/
theorem stdin_resize_registry_contract (writeOk resizeOk : Bool) (st : AppState)
    (p : String) (data : String) (cols rows : Nat) :
    ((writeToProcessStdin writeOk st p data).2 =
        Except.error (Error.processNotRunning p) ↔ lookupKey p st.processes = none) ∧
    ((resizePty resizeOk st p cols rows).2 =
        Except.error (Error.processNotRunning p) ↔ lookupKey p st.processes = none) ∧
    (∀ m : ManagedProcess, lookupKey p st.processes = some m → m.ptyWriter = none →
        writeToProcessStdin writeOk st p data = (st, Except.ok ())) ∧
    (∀ m : ManagedProcess, lookupKey p st.processes = some m → m.ptyMaster = none →
        resizePty resizeOk st p cols rows = (st, Except.ok ())) ∧
    (∀ (m : ManagedProcess) (sz : PtySize), lookupKey p st.processes = some m →
        m.ptyMaster = some sz → resizeOk = true →
        resizePty resizeOk st p cols rows =
          ({ st with
              processes :=
                modifyKey p (fun mm => { mm with ptyMaster := some ⟨rows, cols, 0, 0⟩ })
                  st.processes },
            Except.ok ())) := by
  refine ⟨?_, ?_, ?_, ?_, ?_⟩
  · constructor
    · intro herr
      cases hm : lookupKey p st.processes with
      | none => rfl
      | some m =>
          unfold writeToProcessStdin at herr
          rw [hm] at herr
          simp only [] at herr
          cases hw : m.ptyWriter with
          | none =>
              rw [hw] at herr
              cases herr
          | some buf =>
              rw [hw] at herr
              by_cases hok : writeOk = true
              · rw [if_pos hok] at herr
                cases herr
              · rw [Bool.not_eq_true] at hok
                rw [hok] at herr
                simp only [Bool.false_eq_true, if_false] at herr
                cases herr
    · intro hm
      unfold writeToProcessStdin
      rw [hm]
  · constructor
    · intro herr
      cases hm : lookupKey p st.processes with
      | none => rfl
      | some m =>
          unfold resizePty at herr
          rw [hm] at herr
          simp only [] at herr
          cases hw : m.ptyMaster with
          | none =>
              rw [hw] at herr
              cases herr
          | some sz =>
              rw [hw] at herr
              by_cases hok : resizeOk = true
              · rw [if_pos hok] at herr
                cases herr
              · rw [Bool.not_eq_true] at hok
                rw [hok] at herr
                simp only [Bool.false_eq_true, if_false] at herr
                cases herr
    · intro hm
      unfold resizePty
      rw [hm]
  · intro m hm hw
    unfold writeToProcessStdin
    rw [hm]
    simp only []
    rw [hw]
  · intro m hm hw
    unfold resizePty
    rw [hm]
    simp only []
    rw [hw]
  · intro m sz hm hw hok
    unfold resizePty
    rw [hm]
    simp only []
    rw [hw]
    simp only []
    rw [if_pos hok]

/-- Witness for C8: on a concrete state holding one interactive process, a
resize succeeds and rewrites exactly the PTY size, and a write to a
writerless non-interactive process is a silent no-op. -/
theorem stdin_resize_registry_contract_witness :
    resizePty true
      { processes :=
          [("p1",
            { childId := none, manuallyStopped := false, sessionId := some "s1",
              groupId := "g1", ptyMaster := some ⟨24, 80, 0, 0⟩, ptyWriter := some [],
              isInteractive := true, realPid := some 7 })]
        processInfos := []
        activeSessions := []
        pidLedger := []
        sessions := []
        events := []
        signals := []
        pendingForceKills := [] }
      "p1" 100 50 =
      ({ processes :=
           [("p1",
             { childId := none, manuallyStopped := false, sessionId := some "s1",
               groupId := "g1", ptyMaster := some ⟨50, 100, 0, 0⟩, ptyWriter := some [],
               isInteractive := true, realPid := some 7 })]
         processInfos := []
         activeSessions := []
         pidLedger := []
         sessions := []
         events := []
         signals := []
         pendingForceKills := [] },
        Except.ok ()) := by
  have h := (stdin_resize_registry_contract true true
    { processes :=
        [("p1",
          { childId := none, manuallyStopped := false, sessionId := some "s1",
            groupId := "g1", ptyMaster := some ⟨24, 80, 0, 0⟩, ptyWriter := some [],
            isInteractive := true, realPid := some 7 })]
      processInfos := []
      activeSessions := []
      pidLedger := []
      sessions := []
      events := []
      signals := []
      pendingForceKills := [] }
    "p1" "x" 100 50).2.2.2.2
    { childId := none, manuallyStopped := false, sessionId := some "s1",
      groupId := "g1", ptyMaster := some ⟨24, 80, 0, 0⟩, ptyWriter := some [],
      isInteractive := true, realPid := some 7 }
    ⟨24, 80, 0, 0⟩ rfl rfl rfl
  rw [h]
  rfl

/-- Counterexample to claim C7 as stated: with a recorded pid whose process
group is already dead, the orphan reaper delivers no force-kill at all — the
kill is conditional on the liveness probe, not unconditional. -/
theorem orphan_reaper_unconditional_cex :
    (5 : Nat) ∈
      ({ processes := [], processInfos := [], activeSessions := [], pidLedger := [5],
         sessions := [], events := [], signals := [], pendingForceKills := [] } :
        AppState).pidLedger ∧
    (killOrphanedProcesses (fun _ => false)
      { processes := [], processInfos := [], activeSessions := [], pidLedger := [5],
        sessions := [], events := [], signals := [], pendingForceKills := [] }).signals
      = [] ∧
    (killOrphanedProcesses (fun _ => false)
      { processes := [], processInfos := [], activeSessions := [], pidLedger := [5],
        sessions := [], events := [], signals := [], pendingForceKills := [] }).pidLedger
      = [] := by
  exact ⟨List.mem_singleton.mpr rfl, rfl, rfl⟩

/-- Claim C7 as amended: orphan reaping probes every recorded pid and
force-kills exactly those whose process group is still alive (dead pids get
no signal), and the ledger is empty afterwards either way. -/
theorem orphan_reaper_kills_live_and_clears (alive : Nat → Bool) (st : AppState) :
    (killOrphanedProcesses alive st).pidLedger = [] ∧
    (∀ q : Nat,
        SignalEvent.forceKill q ∈ (killOrphanedProcesses alive st).signals ↔
          (SignalEvent.forceKill q ∈ st.signals ∨ (q ∈ st.pidLedger ∧ alive q = true))) := by
  constructor
  · rfl
  · intro q
    unfold killOrphanedProcesses
    simp only [List.mem_append, List.mem_map, List.mem_filter]
    constructor
    · intro h
      cases h with
      | inl h => exact Or.inl h
      | inr h =>
          obtain ⟨r, ⟨hr1, hr2⟩, hr3⟩ := h
          cases hr3
          exact Or.inr ⟨hr1, hr2⟩
    · intro h
      cases h with
      | inl h => exact Or.inl h
      | inr h => exact Or.inr ⟨q, ⟨h.1, h.2⟩, rfl⟩

/-- Witness for C7 amended: with pids 5 (dead) and 6 (alive) recorded, pid 6
is force-killed, pid 5 is not, and the ledger ends empty. -/
theorem orphan_reaper_kills_live_and_clears_witness :
    (killOrphanedProcesses (fun q => q == 6)
      { processes := [], processInfos := [], activeSessions := [], pidLedger := [5, 6],
        sessions := [], events := [], signals := [], pendingForceKills := [] }).pidLedger
      = [] ∧
    SignalEvent.forceKill 6 ∈
      (killOrphanedProcesses (fun q => q == 6)
        { processes := [], processInfos := [], activeSessions := [], pidLedger := [5, 6],
          sessions := [], events := [], signals := [], pendingForceKills := [] }).signals ∧
    ¬ SignalEvent.forceKill 5 ∈
      (killOrphanedProcesses (fun q => q == 6)
        { processes := [], processInfos := [], activeSessions := [], pidLedger := [5, 6],
          sessions := [], events := [], signals := [], pendingForceKills := [] }).signals := by
  have h := orphan_reaper_kills_live_and_clears (fun q => q == 6)
    { processes := [], processInfos := [], activeSessions := [], pidLedger := [5, 6],
      sessions := [], events := [], signals := [], pendingForceKills := [] }
  refine ⟨h.1, (h.2 6).mpr (Or.inr ⟨by decide, by decide⟩), ?_⟩
  intro hmem
  have h5 := (h.2 5).mp hmem
  cases h5 with
  | inl h5 => cases h5
  | inr h5 =>
      have : (5 == 6) = true := h5.2
      cases this

theorem watchExitFinalize_processInfos (st : AppState) (projectId : String)
    (d : ExitDecision) :
    (watchExitFinalize st projectId d).processInfos =
      modifyKey projectId
        (fun info =>
          { info with
              status := exitStatusOf d
              pid := none
              cpuUsage := 0
              memoryUsage := 0 })
        st.processInfos := by
  unfold watchExitFinalize
  cases hdp : d.pid <;> cases hds : d.sessionId <;> rfl

theorem watchExitFinalize_events (st : AppState) (projectId : String) (d : ExitDecision) :
    (watchExitFinalize st projectId d).events =
      st.events ++ [Event.statusChanged ⟨projectId, exitStatusOf d, none, 0, 0⟩] := by
  unfold watchExitFinalize
  cases hdp : d.pid <;> cases hds : d.sessionId <;> rfl

theorem watchExitFinalize_pidLedger (st : AppState) (projectId : String) (d : ExitDecision)
    (p : Nat) (hpid : d.pid = some p) :
    (watchExitFinalize st projectId d).pidLedger =
      st.pidLedger.filter (fun q => q ≠ p) := by
  unfold watchExitFinalize
  rw [hpid]
  cases hds : d.sessionId <;> rfl

/-- Counterexample to claim C6 as stated: stopping a concrete running
non-interactive process does not move its status to Stopping — the stop call
succeeds but the ProcessInfo status stays Running and no status event (in
particular no Stopping event) is emitted on the single-stop path. -/
theorem stop_process_no_stopping_cex :
    (stopProcess
      { processes :=
          [("p1",
            { childId := some 42, manuallyStopped := false, sessionId := some "s1",
              groupId := "g1", ptyMaster := none, ptyWriter := none,
              isInteractive := false, realPid := some 42 })]
        processInfos := [("p1", ⟨"p1", ProcessStatus.running, some 42, 0, 0⟩)]
        activeSessions := [("p1", "s1")]
        pidLedger := [42]
        sessions := [⟨"s1", "p1", none⟩]
        events := []
        signals := []
        pendingForceKills := [] }
      "p1").2 = Except.ok () ∧
    lookupKey "p1"
      (stopProcess
        { processes :=
            [("p1",
              { childId := some 42, manuallyStopped := false, sessionId := some "s1",
                groupId := "g1", ptyMaster := none, ptyWriter := none,
                isInteractive := false, realPid := some 42 })]
          processInfos := [("p1", ⟨"p1", ProcessStatus.running, some 42, 0, 0⟩)]
          activeSessions := [("p1", "s1")]
          pidLedger := [42]
          sessions := [⟨"s1", "p1", none⟩]
          events := []
          signals := []
          pendingForceKills := [] }
        "p1").1.processInfos = some ⟨"p1", ProcessStatus.running, some 42, 0, 0⟩ ∧
    (stopProcess
      { processes :=
          [("p1",
            { childId := some 42, manuallyStopped := false, sessionId := some "s1",
              groupId := "g1", ptyMaster := none, ptyWriter := none,
              isInteractive := false, realPid := some 42 })]
        processInfos := [("p1", ⟨"p1", ProcessStatus.running, some 42, 0, 0⟩)]
        activeSessions := [("p1", "s1")]
        pidLedger := [42]
        sessions := [⟨"s1", "p1", none⟩]
        events := []
        signals := []
        pendingForceKills := [] }
      "p1").1.events = [] := by
  exact ⟨rfl, rfl, rfl⟩

/-- Claim C6 as amended: a single stop request on a running process leaves
the reported status untouched (it only sets the manual-stop flag and signals
the group; no Stopping status is set or emitted on this path — Stopping is
emitted only by the bulk graceful shutdown), and once the watcher confirms
the exit the status moves directly from Running to Stopped, the only status
event across stop-then-exit is the single Stopped event, and the PID ledger
no longer contains the decided pid. -/
theorem stop_then_exit_running_to_stopped (st : AppState) (p : String)
    (m : ManagedProcess) (info : ProcessInfo) (obs : TickObs) (d : ExitDecision)
    (hm : lookupKey p st.processes = some m)
    (hinfo : lookupKey p st.processInfos = some info)
    (hrun : info.status = ProcessStatus.running)
    (hdec : watchExitPoll (lookupKey p (stopProcess st p).1.processes) obs =
      PollOutcome.decided d) :
    (stopProcess st p).2 = Except.ok () ∧
    (stopProcess st p).1.processInfos = st.processInfos ∧
    (stopProcess st p).1.events = st.events ∧
    exitStatusOf d = ProcessStatus.stopped ∧
    lookupKey p (watchExitFinalize (stopProcess st p).1 p d).processInfos =
      some
        { info with
            status := ProcessStatus.stopped
            pid := none
            cpuUsage := 0
            memoryUsage := 0 } ∧
    (∀ q : Nat, d.pid = some q →
        q ∉ (watchExitFinalize (stopProcess st p).1 p d).pidLedger) ∧
    (watchExitFinalize (stopProcess st p).1 p d).events =
      st.events ++ [Event.statusChanged ⟨p, ProcessStatus.stopped, none, 0, 0⟩] := by
  obtain ⟨hok, hproc, hinfos, hevents, hledger⟩ := stopProcess_ok_of_entry st p m hm
  rw [stopProcess_sets_flag st p m hm] at hdec
  have hd : d.manuallyStopped = true :=
    poll_decided_manuallyStopped _ obs d rfl hdec
  have hstat : exitStatusOf d = ProcessStatus.stopped := by
    rw [exitStatus_stopped_iff, hd]
    rfl
  refine ⟨hok, hinfos, hevents, hstat, ?_, ?_, ?_⟩
  · rw [watchExitFinalize_processInfos, hinfos, lookupKey_modify_self, hinfo, hstat]
    rfl
  · intro q hq hmem
    rw [watchExitFinalize_pidLedger _ _ _ q hq, List.mem_filter] at hmem
    have hneq := hmem.2
    simp at hneq
  · rw [watchExitFinalize_events, hevents, hstat]

/-- Witness for C6 amended: the concrete stop-then-exit run of a registered
sleeping process ends Stopped with pid 42 pruned from the ledger and exactly
one Stopped status event. -/
theorem stop_then_exit_running_to_stopped_witness :
    exitStatusOf ⟨true, false, some "s1", "g1", some 42⟩ = ProcessStatus.stopped ∧
    (42 : Nat) ∉
      (watchExitFinalize
        (stopProcess
          { processes :=
              [("p1",
                { childId := some 42, manuallyStopped := false, sessionId := some "s1",
                  groupId := "g1", ptyMaster := none, ptyWriter := none,
                  isInteractive := false, realPid := some 42 })]
            processInfos := [("p1", ⟨"p1", ProcessStatus.running, some 42, 0, 0⟩)]
            activeSessions := [("p1", "s1")]
            pidLedger := [42]
            sessions := [⟨"s1", "p1", none⟩]
            events := []
            signals := []
            pendingForceKills := [] }
          "p1").1 "p1" ⟨true, false, some "s1", "g1", some 42⟩).pidLedger := by
  have h := stop_then_exit_running_to_stopped
    { processes :=
        [("p1",
          { childId := some 42, manuallyStopped := false, sessionId := some "s1",
            groupId := "g1", ptyMaster := none, ptyWriter := none,
            isInteractive := false, realPid := some 42 })]
      processInfos := [("p1", ⟨"p1", ProcessStatus.running, some 42, 0, 0⟩)]
      activeSessions := [("p1", "s1")]
      pidLedger := [42]
      sessions := [⟨"s1", "p1", none⟩]
      events := []
      signals := []
      pendingForceKills := [] }
    "p1"
    { childId := some 42, manuallyStopped := false, sessionId := some "s1",
      groupId := "g1", ptyMaster := none, ptyWriter := none,
      isInteractive := false, realPid := some 42 }
    ⟨"p1", ProcessStatus.running, some 42, 0, 0⟩
    ⟨true, TryWaitResult.exited false⟩
    ⟨true, false, some "s1", "g1", some 42⟩
    rfl rfl rfl rfl
  exact ⟨h.2.2.2.1, h.2.2.2.2.2.1 42 rfl⟩

/-- Predicate for one of the spawn failure points of the spawn environment:
the regular path fails at the child spawn; the interactive path at PTY
allocation, PTY command spawn, reader cloning or writer acquisition. -/
def spawnAttemptFails (env : SpawnEnv) (interactive : Bool) : Bool :=
  if interactive then
    !env.ptyOpenOk || !env.ptySpawnOk || !env.cloneReaderOk || !env.takeWriterOk
  else
    !env.spawnOk

/-- Counterexample to claim C4 as stated: a concrete failed spawn (child
launch failure on the regular path, no prior registry entry) returns a
SpawnError, yet the active-session mapping created before the launch step
survives, and the session created in the database remains open — so partial
state does survive a failed spawn. -/
theorem spawn_failure_session_survives_cex :
    (spawnProcess
      { newSessionId := "s1", createSessionOk := true, spawnOk := false,
        spawnedPid := none, ptyOpenOk := true, ptySpawnOk := true, ptyPid := none,
        cloneReaderOk := true, takeWriterOk := true, dummyChildId := none }
      { processes := [], processInfos := [], activeSessions := [], pidLedger := [],
        sessions := [], events := [], signals := [], pendingForceKills := [] }
      "p1" "g1" false).2 = Except.error (Error.spawnError "spawn failed") ∧
    lookupKey "p1"
      (spawnProcess
        { newSessionId := "s1", createSessionOk := true, spawnOk := false,
          spawnedPid := none, ptyOpenOk := true, ptySpawnOk := true, ptyPid := none,
          cloneReaderOk := true, takeWriterOk := true, dummyChildId := none }
        { processes := [], processInfos := [], activeSessions := [], pidLedger := [],
          sessions := [], events := [], signals := [], pendingForceKills := [] }
        "p1" "g1" false).1.activeSessions = some "s1" ∧
    (spawnProcess
      { newSessionId := "s1", createSessionOk := true, spawnOk := false,
        spawnedPid := none, ptyOpenOk := true, ptySpawnOk := true, ptyPid := none,
        cloneReaderOk := true, takeWriterOk := true, dummyChildId := none }
      { processes := [], processInfos := [], activeSessions := [], pidLedger := [],
        sessions := [], events := [], signals := [], pendingForceKills := [] }
      "p1" "g1" false).1.sessions = [⟨"s1", "p1", none⟩] := by
  exact ⟨rfl, rfl, rfl⟩

/-- Claim C4 as amended: a failed spawn attempt (PTY allocation, process
launch, or PTY reader/writer acquisition failure) surfaces as a SpawnError
and creates no registry entry and no ProcessInfo entry; however the session
created at the start of spawn_process stays open in the database and the
active-session mapping for the project survives. -/
theorem spawn_failure_partial_state (env : SpawnEnv) (st : AppState)
    (projectId groupId : String) (interactive : Bool)
    (hnr : lookupKey projectId st.processes = none)
    (hdb : env.createSessionOk = true)
    (hfail : spawnAttemptFails env interactive = true) :
    (∃ msg, (spawnProcess env st projectId groupId interactive).2 =
        Except.error (Error.spawnError msg)) ∧
    (spawnProcess env st projectId groupId interactive).1.processes = st.processes ∧
    (spawnProcess env st projectId groupId interactive).1.processInfos =
      st.processInfos ∧
    lookupKey projectId
      (spawnProcess env st projectId groupId interactive).1.activeSessions =
      some env.newSessionId ∧
    (⟨env.newSessionId, projectId, none⟩ : SessionRec) ∈
      (spawnProcess env st projectId groupId interactive).1.sessions := by
  unfold spawnProcess
  rw [hnr, hdb]
  cases hi : interactive with
  | false =>
      have hsp : env.spawnOk = false := by
        have hx := hfail
        rw [hi] at hx
        unfold spawnAttemptFails at hx
        simpa using hx
      unfold spawnRegularProcess
      rw [hsp]
      refine ⟨⟨"spawn failed", rfl⟩, rfl, rfl, ?_, ?_⟩
      · exact lookupKey_insert_self projectId env.newSessionId st.activeSessions
      · simp
  | true =>
      rw [hi] at hfail
      unfold spawnAttemptFails at hfail
      rw [if_pos rfl] at hfail
      have hcases : ((env.ptyOpenOk = false ∨ env.ptySpawnOk = false) ∨
          env.cloneReaderOk = false) ∨ env.takeWriterOk = false := by
        simpa [Bool.or_eq_true, Bool.not_eq_true'] using hfail
      unfold spawnInteractiveProcess
      by_cases h1 : env.ptyOpenOk = true
      · by_cases h2 : env.ptySpawnOk = true
        · by_cases h3 : env.cloneReaderOk = true
          · have h4 : env.takeWriterOk = false := by
              rcases hcases with ((h | h) | h) | h
              · exact absurd h1 (by simp [h])
              · exact absurd h2 (by simp [h])
              · exact absurd h3 (by simp [h])
              · exact h
            rw [h1, h2, h3, h4]
            cases hp : env.ptyPid with
            | none =>
                refine ⟨⟨"Failed to get PTY writer", rfl⟩, rfl, rfl, ?_, ?_⟩
                · exact lookupKey_insert_self projectId env.newSessionId st.activeSessions
                · simp
            | some q =>
                refine ⟨⟨"Failed to get PTY writer", rfl⟩, rfl, rfl, ?_, ?_⟩
                · exact lookupKey_insert_self projectId env.newSessionId st.activeSessions
                · simp
          · have h3f : env.cloneReaderOk = false := by
              rw [Bool.not_eq_true] at h3
              exact h3
            rw [h1, h2, h3f]
            cases hp : env.ptyPid with
            | none =>
                refine ⟨⟨"Failed to clone PTY reader", rfl⟩, rfl, rfl, ?_, ?_⟩
                · exact lookupKey_insert_self projectId env.newSessionId st.activeSessions
                · simp
            | some q =>
                refine ⟨⟨"Failed to clone PTY reader", rfl⟩, rfl, rfl, ?_, ?_⟩
                · exact lookupKey_insert_self projectId env.newSessionId st.activeSessions
                · simp
        · have h2f : env.ptySpawnOk = false := by
            rw [Bool.not_eq_true] at h2
            exact h2
          rw [h1, h2f]
          refine ⟨⟨"Failed to spawn PTY command", rfl⟩, rfl, rfl, ?_, ?_⟩
          · exact lookupKey_insert_self projectId env.newSessionId st.activeSessions
          · simp
      · have h1f : env.ptyOpenOk = false := by
          rw [Bool.not_eq_true] at h1
          exact h1
        rw [h1f]
        refine ⟨⟨"Failed to open PTY", rfl⟩, rfl, rfl, ?_, ?_⟩
        · exact lookupKey_insert_self projectId env.newSessionId st.activeSessions
        · simp

/-- Witness for C4 amended: a concrete PTY-allocation failure leaves the
session open and mapped while registry and infos stay empty. -/
theorem spawn_failure_partial_state_witness :
    lookupKey "p3"
      (spawnProcess
        { newSessionId := "s3", createSessionOk := true, spawnOk := true,
          spawnedPid := none, ptyOpenOk := false, ptySpawnOk := true, ptyPid := none,
          cloneReaderOk := true, takeWriterOk := true, dummyChildId := none }
        { processes := [], processInfos := [], activeSessions := [], pidLedger := [],
          sessions := [], events := [], signals := [], pendingForceKills := [] }
        "p3" "g1" true).1.activeSessions = some "s3" ∧
    (spawnProcess
      { newSessionId := "s3", createSessionOk := true, spawnOk := true,
        spawnedPid := none, ptyOpenOk := false, ptySpawnOk := true, ptyPid := none,
        cloneReaderOk := true, takeWriterOk := true, dummyChildId := none }
      { processes := [], processInfos := [], activeSessions := [], pidLedger := [],
        sessions := [], events := [], signals := [], pendingForceKills := [] }
      "p3" "g1" true).1.processes = [] := by
  have h := spawn_failure_partial_state
    { newSessionId := "s3", createSessionOk := true, spawnOk := true,
      spawnedPid := none, ptyOpenOk := false, ptySpawnOk := true, ptyPid := none,
      cloneReaderOk := true, takeWriterOk := true, dummyChildId := none }
    { processes := [], processInfos := [], activeSessions := [], pidLedger := [],
      sessions := [], events := [], signals := [], pendingForceKills := [] }
    "p3" "g1" true rfl rfl rfl
  exact ⟨h.2.2.2.1, h.2.1⟩

/-- The final visit list of one aggregate_process_tree run (root plus every
    discovered descendant pid). -/
def treeMembers (sys : List ProcEntry) (rootPid : Nat) : List Nat :=
  bfsLoop sys (sys.length + 2) [rootPid] 0

theorem cpuContribution_none (sys : List ProcEntry) (q : Nat)
    (h : sysProcess sys q = none) : cpuContribution sys q = 0 := by
  unfold cpuContribution
  rw [h]

theorem cpuContribution_some (sys : List ProcEntry) (q : Nat) (p : ProcEntry)
    (h : sysProcess sys q = some p) : cpuContribution sys q = p.cpu := by
  unfold cpuContribution
  rw [h]

theorem memContribution_none (isLinux : Bool) (pageSize : Nat) (sys : List ProcEntry)
    (q : Nat) (h : sysProcess sys q = none) :
    memContribution isLinux pageSize sys q = 0 := by
  unfold memContribution
  rw [h]

theorem memContribution_some (isLinux : Bool) (pageSize : Nat) (sys : List ProcEntry)
    (q : Nat) (p : ProcEntry) (h : sysProcess sys q = some p) :
    memContribution isLinux pageSize sys q =
      (if isLinux then
        (if isThread p then 0 else (readPrivateMemory pageSize p).getD p.rss)
      else p.rss) := by
  unfold memContribution
  rw [h]

theorem aggregateLoop_visits (isLinux : Bool) (pageSize : Nat) (sys : List ProcEntry) :
    ∀ (fuel : Nat) (tree : List Nat) (i : Nat) (cpu : Rat) (mem : Nat),
      aggregateLoop isLinux pageSize sys fuel tree i cpu mem =
        (cpu + ((visitLoop sys fuel tree i).map (cpuContribution sys)).sum,
         mem + ((visitLoop sys fuel tree i).map
            (memContribution isLinux pageSize sys)).sum,
         bfsLoop sys fuel tree i) := by
  intro fuel
  induction fuel with
  | zero =>
      intro tree i cpu mem
      simp [aggregateLoop, visitLoop, bfsLoop]
  | succ fuel ih =>
      intro tree i cpu mem
      by_cases h : i < tree.length
      · simp only [aggregateLoop, visitLoop, bfsLoop]
        rw [dif_pos h, dif_pos h, dif_pos h]
        rw [ih]
        simp only [List.map_cons, List.sum_cons, Prod.mk.injEq]
        cases hsp : sysProcess sys (tree.get ⟨i, h⟩) with
        | none =>
            rw [cpuContribution_none sys _ hsp,
              memContribution_none isLinux pageSize sys _ hsp]
            exact ⟨by rw [zero_add], by rw [Nat.zero_add], by trivial⟩
        | some p =>
            rw [cpuContribution_some sys _ p hsp,
              memContribution_some isLinux pageSize sys _ p hsp]
            refine ⟨by rw [add_assoc], ?_, by trivial⟩
            cases isLinux with
            | false => simp [Nat.add_assoc]
            | true =>
                cases ht : isThread p with
                | false => simp [ht, Nat.add_assoc]
                | true => simp [ht]
      · simp only [aggregateLoop, visitLoop, bfsLoop]
        rw [dif_neg h, dif_neg h, dif_neg h]
        simp

theorem subset_pushChildren (sys : List ProcEntry) (par : Nat) :
    ∀ (tree : List Nat) (x : Nat), x ∈ tree → x ∈ pushChildren sys par tree := by
  induction sys with
  | nil =>
      intro tree x hx
      exact hx
  | cons e rest ih =>
      intro tree x hx
      simp only [pushChildren, List.foldl_cons]
      by_cases hc : (e.parent == some par && !(tree.contains e.pid)) = true
      · rw [if_pos hc]
        exact ih (tree ++ [e.pid]) x (List.mem_append_left _ hx)
      · rw [if_neg hc]
        exact ih tree x hx

theorem mem_pushChildren_spec (sys : List ProcEntry) (par : Nat) :
    ∀ (tree : List Nat) (q : Nat), q ∈ pushChildren sys par tree →
      q ∈ tree ∨ ∃ e ∈ sys, e.pid = q ∧ e.parent = some par := by
  induction sys with
  | nil =>
      intro tree q hq
      exact Or.inl hq
  | cons e rest ih =>
      intro tree q hq
      simp only [pushChildren, List.foldl_cons] at hq
      by_cases hc : (e.parent == some par && !(tree.contains e.pid)) = true
      · rw [if_pos hc] at hq
        rcases ih (tree ++ [e.pid]) q hq with hmem | ⟨e₂, he₂, hpid, hpar⟩
        · rcases List.mem_append.mp hmem with hmem | hmem
          · exact Or.inl hmem
          · have hq₂ : q = e.pid := List.mem_singleton.mp hmem
            have hpar : e.parent = some par := by
              have := (Bool.and_eq_true _ _).mp hc
              exact beq_iff_eq.mp this.1
            exact Or.inr ⟨e, List.mem_cons_self e rest, hq₂.symm, hpar⟩
        · exact Or.inr ⟨e₂, List.mem_cons_of_mem e he₂, hpid, hpar⟩
      · rw [if_neg hc] at hq
        rcases ih tree q hq with hmem | ⟨e₂, he₂, hpid, hpar⟩
        · exact Or.inl hmem
        · exact Or.inr ⟨e₂, List.mem_cons_of_mem e he₂, hpid, hpar⟩

theorem subset_bfsLoop (sys : List ProcEntry) :
    ∀ (fuel : Nat) (tree : List Nat) (i : Nat) (x : Nat),
      x ∈ tree → x ∈ bfsLoop sys fuel tree i := by
  intro fuel
  induction fuel with
  | zero =>
      intro tree i x hx
      exact hx
  | succ fuel ih =>
      intro tree i x hx
      simp only [bfsLoop]
      by_cases h : i < tree.length
      · rw [dif_pos h]
        exact ih _ (i + 1) x (subset_pushChildren sys _ tree x hx)
      · rw [dif_neg h]
        exact hx

theorem bfsLoop_parent_link (sys : List ProcEntry) :
    ∀ (fuel : Nat) (tree : List Nat) (i : Nat) (q : Nat),
      q ∈ bfsLoop sys fuel tree i →
      q ∈ tree ∨ ∃ e ∈ sys, e.pid = q ∧
        ∃ par, e.parent = some par ∧ par ∈ bfsLoop sys fuel tree i := by
  intro fuel
  induction fuel with
  | zero =>
      intro tree i q hq
      exact Or.inl hq
  | succ fuel ih =>
      intro tree i q hq
      simp only [bfsLoop] at hq ⊢
      by_cases h : i < tree.length
      · rw [dif_pos h] at hq ⊢
        rcases ih _ (i + 1) q hq with hmem | ⟨e, he, hpid, par, hpar, hparmem⟩
        · rcases mem_pushChildren_spec sys _ tree q hmem with hmem₂ | ⟨e, he, hpid, hpar⟩
          · exact Or.inl hmem₂
          · refine Or.inr ⟨e, he, hpid, tree.get ⟨i, h⟩, hpar, ?_⟩
            exact subset_bfsLoop sys fuel _ (i + 1) _
              (subset_pushChildren sys _ tree _ (tree.get_mem i h))
        · exact Or.inr ⟨e, he, hpid, par, hpar, hparmem⟩
      · rw [dif_neg h] at hq ⊢
        exact Or.inl hq

theorem visitLoop_subset_bfsLoop (sys : List ProcEntry) :
    ∀ (fuel : Nat) (tree : List Nat) (i : Nat) (q : Nat),
      q ∈ visitLoop sys fuel tree i → q ∈ bfsLoop sys fuel tree i := by
  intro fuel
  induction fuel with
  | zero =>
      intro tree i q hq
      cases hq
  | succ fuel ih =>
      intro tree i q hq
      simp only [visitLoop] at hq
      simp only [bfsLoop]
      by_cases h : i < tree.length
      · rw [dif_pos h] at hq
        rw [dif_pos h]
        rcases List.mem_cons.mp hq with hq | hq
        · subst hq
          exact subset_bfsLoop sys fuel _ (i + 1) _
            (subset_pushChildren sys _ tree _ (tree.get_mem i h))
        · exact ih _ (i + 1) q hq
      · rw [dif_neg h] at hq
        cases hq

/-- Claim C10: one aggregate_process_tree run reports exactly the sum of the
per-core CPU percentages of the visited tree entries divided by the logical
core count, and a memory total in which (on Linux) entries whose thread-group
id differs from their recorded pid contribute nothing while process leaders
contribute private memory (resident minus shared pages, falling back to raw
RSS when the statm data or page size is unavailable), and on non-Linux
platforms every visited entry contributes raw RSS; the visit list starts at
the root and every other visited pid is reachable by a parent link from a
discovered tree member. -/
theorem aggregate_process_tree_characterization (isLinux : Bool) (pageSize : Nat)
    (sys : List ProcEntry) (rootPid : Nat) (numCpus : Rat) :
    aggregateProcessTree isLinux pageSize sys rootPid numCpus =
      (((visitedPids sys rootPid).map (cpuContribution sys)).sum / numCpus,
       ((visitedPids sys rootPid).map (memContribution isLinux pageSize sys)).sum) ∧
    rootPid ∈ visitedPids sys rootPid ∧
    (∀ q ∈ visitedPids sys rootPid,
        q = rootPid ∨ ∃ e ∈ sys, e.pid = q ∧
          ∃ par, e.parent = some par ∧ par ∈ treeMembers sys rootPid) := by
  refine ⟨?_, ?_, ?_⟩
  · unfold aggregateProcessTree visitedPids
    rw [aggregateLoop_visits]
    simp
  · unfold visitedPids
    simp only [visitLoop]
    rw [dif_pos (by simp : (0 : Nat) < ([rootPid] : List Nat).length)]
    exact List.mem_cons_self _ _
  · intro q hq
    unfold visitedPids at hq
    have hq₂ := visitLoop_subset_bfsLoop sys _ [rootPid] 0 q hq
    rcases bfsLoop_parent_link sys _ [rootPid] 0 q hq₂ with hmem | ⟨e, he, hpid, par, hpar, hparmem⟩
    · exact Or.inl (List.mem_singleton.mp hmem)
    · exact Or.inr ⟨e, he, hpid, par, hpar, hparmem⟩

/-- Example process table for the C10 witness: root 1, its thread 2 (tgid 1
differs from pid 2), and its child process 3 with unreadable statm. -/
def sysExample : List ProcEntry :=
  [⟨1, none, 10, 1000, some 1, some 1, some (3, 1)⟩,
   ⟨2, some 1, 30, 1000, some 1, some 2, some (3, 1)⟩,
   ⟨3, some 1, 20, 999, some 3, some 3, none⟩]

/-- Witness for C10: on the concrete three-entry table (Linux, page size
4096, 2 logical cores) the thread contributes cpu but no memory, the root
contributes private memory, the statm-less child falls back to raw RSS, and
the cpu sum is halved by the core count. -/
theorem aggregate_process_tree_characterization_witness :
    aggregateProcessTree true 4096 sysExample 1 2 = (30, 2 * 4096 + 999) := by
  have h := (aggregate_process_tree_characterization true 4096 sysExample 1 2).1
  rw [h]
  have hv : visitedPids sysExample 1 = [1, 2, 3] := rfl
  have h1 : cpuContribution sysExample 1 = 10 := rfl
  have h2 : cpuContribution sysExample 2 = 30 := rfl
  have h3 : cpuContribution sysExample 3 = 20 := rfl
  have m1 : memContribution true 4096 sysExample 1 = 8192 := rfl
  have m2 : memContribution true 4096 sysExample 2 = 0 := rfl
  have m3 : memContribution true 4096 sysExample 3 = 999 := rfl
  rw [hv]
  simp only [List.map_cons, List.map_nil, h1, h2, h3, m1, m2, m3, List.sum_cons,
    List.sum_nil]
  norm_num

end OpenRunner
